import Mathlib

/-!
Verification of `halotools/mock_observables/clustering.py` (two-point
correlation function engine): shallow embedding of the estimator engine,
analytic random counts, subvolume partitioning, jackknife covariance and
the `tpcf` orchestration, with theorems settling the frozen claims.

Conventions of the embedding:
* numpy float arrays are modelled as `List ℚ` (or `Fin n → ℚ` where the
  source works with fixed-shape matrices); float arithmetic is idealised
  as exact rational arithmetic.
* point samples are `List Pt` with `Pt := List ℚ` (an N x k array as a
  list of rows); `np.all(a == b)` on same-shaped arrays is list equality.
* Python `None` is `Option.none`; a raised exception is `Except.error`
  carrying a `PyError`; a function body falling through without a
  `return` statement yields the explicit result `TpcfResult.nothing`
  (Python's implicit `None`).
* division by zero follows the rational convention `x / 0 = 0`; where a
  claim depends on a quotient the relevant denominators are hypotheses.
-/

namespace Halotools

/-- A k-dimensional point (one row of an `Npts x k` numpy array). -/
abbrev Pt := List ℚ

/-- Python exception values raised by the clustering module. -/
inductive PyError where
  | valueError (msg : String)
  | attributeError (msg : String)
deriving DecidableEq

/-- `np.diff` on a 1-D array: `out[i] = a[i+1] - a[i]`. -/
def np_diff (l : List ℚ) : List ℚ :=
  List.zipWith (fun a b => b - a) l l.tail

/-- Three-argument elementwise zip (the shape of numpy expressions that
combine three equal-length arrays pointwise). -/
def zipWith3Q (f : ℚ → ℚ → ℚ → ℚ) : List ℚ → List ℚ → List ℚ → List ℚ
  | a :: A, b :: B, c :: C => f a b c :: zipWith3Q f A B C
  | _, _, _ => []

/-- The five supported estimator names (`list_estimators` in the source). -/
def estimators : List String :=
  ["Natural", "Davis-Peebles", "Hewett", "Hamilton", "Landy-Szalay"]

/-- `TP_estimator(DD, DR, RR, ND1, ND2, NR1, NR2, estimator)` from
`clustering.py` (the body is triplicated verbatim inside `tpcf` and
`redshift_space_tpcf`; the jackknife copy differs only by transposes that
broadcast the same per-row formula).  Each branch is the literal numpy
expression of the source, read elementwise. -/
def TP_estimator (DD DR RR : List ℚ) (ND1 ND2 NR1 NR2 : ℚ)
    (estimator : String) : Except PyError (List ℚ) :=
  if estimator = "Natural" then
    let factor := ND1 * ND2 / (NR1 * NR2)
    -- xi = (1.0/factor)*DD/RR - 1.0
    .ok (((DD.map (fun x => 1 / factor * x)).zipWith (fun a b => a / b) RR).map
      (fun x => x - 1))
  else if estimator = "Davis-Peebles" then
    let factor := ND1 * ND2 / (ND1 * NR2)
    -- xi = (1.0/factor)*DD/DR - 1.0
    .ok (((DD.map (fun x => 1 / factor * x)).zipWith (fun a b => a / b) DR).map
      (fun x => x - 1))
  else if estimator = "Hewett" then
    let factor1 := ND1 * ND2 / (NR1 * NR2)
    let factor2 := ND1 * NR2 / (NR1 * NR2)
    -- xi = (1.0/factor1)*DD/RR - (1.0/factor2)*DR/RR
    .ok (List.zipWith (fun a b => a - b)
      ((DD.map (fun x => 1 / factor1 * x)).zipWith (fun a b => a / b) RR)
      ((DR.map (fun x => 1 / factor2 * x)).zipWith (fun a b => a / b) RR))
  else if estimator = "Hamilton" then
    -- xi = (DD*RR)/(DR*DR) - 1.0
    .ok ((List.zipWith (fun a b => a / b)
      (List.zipWith (fun a b => a * b) DD RR)
      (List.zipWith (fun a b => a * b) DR DR)).map (fun x => x - 1))
  else if estimator = "Landy-Szalay" then
    let factor1 := ND1 * ND2 / (NR1 * NR2)
    let factor2 := ND1 * NR2 / (NR1 * NR2)
    -- xi = (1.0/factor1)*DD/RR - (1.0/factor2)*2.0*DR/RR + 1.0
    .ok ((List.zipWith (fun a b => a - b)
      ((DD.map (fun x => 1 / factor1 * x)).zipWith (fun a b => a / b) RR)
      ((DR.map (fun x => 1 / factor2 * 2 * x)).zipWith (fun a b => a / b) RR)).map
      (fun x => x + 1))
  else .error (.valueError "unsupported estimator!")

/-- `TP_estimator_requirements(estimator)` from the source: which of
(DD, DR, RR) the chosen estimator consumes. -/
def TP_estimator_requirements (estimator : String) :
    Except PyError (Bool × Bool × Bool) :=
  if estimator = "Natural" then .ok (true, false, true)
  else if estimator = "Davis-Peebles" then .ok (true, true, false)
  else if estimator = "Hewett" then .ok (true, true, true)
  else if estimator = "Hamilton" then .ok (true, true, true)
  else if estimator = "Landy-Szalay" then .ok (true, true, true)
  else .error (.valueError "unsupported estimator!")

/-- Modelled from the spec: the estimator table of the specification,
Natural row, written exactly as `(NR1*NR2)/(ND1*ND2) * DD/RR - 1` per bin. -/
def spec_natural (DD RR : List ℚ) (ND1 ND2 NR1 NR2 : ℚ) : List ℚ :=
  List.zipWith (fun dd rr => NR1 * NR2 / (ND1 * ND2) * dd / rr - 1) DD RR

/-- Modelled from the spec: Davis-Peebles row, `(NR2/ND2) * DD/DR - 1`. -/
def spec_davis_peebles (DD DR : List ℚ) (ND2 NR2 : ℚ) : List ℚ :=
  List.zipWith (fun dd dr => NR2 / ND2 * dd / dr - 1) DD DR

/-- Modelled from the spec: Hewett row,
`(NR1*NR2)/(ND1*ND2)*DD/RR - (NR1*NR2)/(ND1*NR2)*DR/RR`. -/
def spec_hewett (DD DR RR : List ℚ) (ND1 ND2 NR1 NR2 : ℚ) : List ℚ :=
  zipWith3Q (fun dd dr rr =>
    NR1 * NR2 / (ND1 * ND2) * dd / rr - NR1 * NR2 / (ND1 * NR2) * dr / rr) DD DR RR

/-- Modelled from the spec: Hamilton row, `DD*RR/DR^2 - 1`. -/
def spec_hamilton (DD DR RR : List ℚ) : List ℚ :=
  zipWith3Q (fun dd dr rr => dd * rr / (dr * dr) - 1) DD DR RR

/-- Modelled from the spec: Landy-Szalay row,
`(NR1*NR2)/(ND1*ND2)*DD/RR - 2*(NR1*NR2)/(ND1*NR2)*DR/RR + 1`. -/
def spec_landy_szalay (DD DR RR : List ℚ) (ND1 ND2 NR1 NR2 : ℚ) : List ℚ :=
  zipWith3Q (fun dd dr rr =>
    NR1 * NR2 / (ND1 * ND2) * dd / rr
      - 2 * (NR1 * NR2) / (ND1 * NR2) * dr / rr + 1) DD DR RR

/- List algebra lemmas that rewrite the numpy expression trees into a single
pointwise zip, so that each estimator branch can be compared bin by bin with
the spec's formula. -/

lemma map_zipWith_mapped_left (f h : ℚ → ℚ) (g : ℚ → ℚ → ℚ) :
    ∀ A B : List ℚ,
      ((A.map f).zipWith g B).map h = A.zipWith (fun a b => h (g (f a) b)) B := by
  intro A
  induction A with
  | nil => intro B; rfl
  | cons a A ih =>
    intro B
    cases B with
    | nil => rfl
    | cons b B => simp [List.zipWith, ih]

lemma zipWith_mapped_left (f : ℚ → ℚ) (g : ℚ → ℚ → ℚ) :
    ∀ A B : List ℚ,
      (A.map f).zipWith g B = A.zipWith (fun a b => g (f a) b) B := by
  intro A
  induction A with
  | nil => intro B; rfl
  | cons a A ih =>
    intro B
    cases B with
    | nil => rfl
    | cons b B => simp [List.zipWith, ih]

lemma zipWith_two_over_common_right (h g₁ g₂ : ℚ → ℚ → ℚ) :
    ∀ A B C : List ℚ,
      List.zipWith h (List.zipWith g₁ A C) (List.zipWith g₂ B C)
        = zipWith3Q (fun a b c => h (g₁ a c) (g₂ b c)) A B C := by
  intro A
  induction A with
  | nil => intro B C; cases B <;> cases C <;> rfl
  | cons a A ih =>
    intro B C
    cases B with
    | nil => cases C <;> rfl
    | cons b B =>
      cases C with
      | nil => rfl
      | cons c C => simp [List.zipWith, zipWith3Q, ih]

lemma map_zipWith_pair_sq_right (m : ℚ → ℚ) (h g₁ g₂ : ℚ → ℚ → ℚ) :
    ∀ A B C : List ℚ,
      (List.zipWith h (List.zipWith g₁ A B) (List.zipWith g₂ C C)).map m
        = zipWith3Q (fun a b c => m (h (g₁ a b) (g₂ c c))) A B C := by
  intro A
  induction A with
  | nil => intro B C; cases B <;> cases C <;> rfl
  | cons a A ih =>
    intro B C
    cases B with
    | nil => cases C <;> rfl
    | cons b B =>
      cases C with
      | nil => rfl
      | cons c C =>
        simp only [List.zipWith_cons_cons, List.map_cons, zipWith3Q, ih]

lemma zipWith3Q_swap23 (f : ℚ → ℚ → ℚ → ℚ) :
    ∀ A B C : List ℚ,
      zipWith3Q f A B C = zipWith3Q (fun a c b => f a b c) A C B := by
  intro A
  induction A with
  | nil => intro B C; cases B <;> cases C <;> rfl
  | cons a A ih =>
    intro B C
    cases B with
    | nil => cases C <;> rfl
    | cons b B =>
      cases C with
      | nil => rfl
      | cons c C => simp only [zipWith3Q, ih]

lemma map_zipWith3Q (m : ℚ → ℚ) (f : ℚ → ℚ → ℚ → ℚ) :
    ∀ A B C : List ℚ,
      (zipWith3Q f A B C).map m = zipWith3Q (fun a b c => m (f a b c)) A B C := by
  intro A
  induction A with
  | nil => intro B C; cases B <;> cases C <;> rfl
  | cons a A ih =>
    intro B C
    cases B with
    | nil => cases C <;> rfl
    | cons b B =>
      cases C with
      | nil => rfl
      | cons c C => simp [zipWith3Q, ih]

lemma zipWith_congr (f g : ℚ → ℚ → ℚ) (h : ∀ a b, f a b = g a b) :
    ∀ A B : List ℚ, List.zipWith f A B = List.zipWith g A B := by
  intro A
  induction A with
  | nil => intro B; rfl
  | cons a A ih =>
    intro B
    cases B with
    | nil => rfl
    | cons b B => simp [List.zipWith, h, ih]

lemma zipWith3Q_congr (f g : ℚ → ℚ → ℚ → ℚ) (h : ∀ a b c, f a b c = g a b c) :
    ∀ A B C : List ℚ, zipWith3Q f A B C = zipWith3Q g A B C := by
  intro A
  induction A with
  | nil => intro B C; cases B <;> cases C <;> rfl
  | cons a A ih =>
    intro B C
    cases B with
    | nil => cases C <;> rfl
    | cons b B =>
      cases C with
      | nil => rfl
      | cons c C => simp [zipWith3Q, h, ih]

/-- **C1.** For every per-bin count vectors `DD`, `DR`, `RR` and positive
sample sizes `ND1, ND2, NR1, NR2`, `TP_estimator` returns per bin exactly the
spec's formula for each of the five named estimators: Natural
`(NR1*NR2)/(ND1*ND2)*DD/RR - 1`; Davis-Peebles `(NR2/ND2)*DD/DR - 1`; Hewett
`(NR1*NR2)/(ND1*ND2)*DD/RR - (NR1*NR2)/(ND1*NR2)*DR/RR`; Hamilton
`DD*RR/DR^2 - 1`; Landy-Szalay
`(NR1*NR2)/(ND1*ND2)*DD/RR - 2*(NR1*NR2)/(ND1*NR2)*DR/RR + 1`. -/
theorem TP_estimator_matches_spec_formulas (DD DR RR : List ℚ)
    (ND1 ND2 NR1 NR2 : ℚ) (hND1 : 0 < ND1) (hND2 : 0 < ND2)
    (hNR1 : 0 < NR1) (hNR2 : 0 < NR2) :
    TP_estimator DD DR RR ND1 ND2 NR1 NR2 "Natural"
        = .ok (spec_natural DD RR ND1 ND2 NR1 NR2)
      ∧ TP_estimator DD DR RR ND1 ND2 NR1 NR2 "Davis-Peebles"
        = .ok (spec_davis_peebles DD DR ND2 NR2)
      ∧ TP_estimator DD DR RR ND1 ND2 NR1 NR2 "Hewett"
        = .ok (spec_hewett DD DR RR ND1 ND2 NR1 NR2)
      ∧ TP_estimator DD DR RR ND1 ND2 NR1 NR2 "Hamilton"
        = .ok (spec_hamilton DD DR RR)
      ∧ TP_estimator DD DR RR ND1 ND2 NR1 NR2 "Landy-Szalay"
        = .ok (spec_landy_szalay DD DR RR ND1 ND2 NR1 NR2) := by
  have hND1' := hND1.ne'
  refine ⟨?_, ?_, ?_, ?_, ?_⟩
  · -- Natural
    simp only [TP_estimator, String.reduceEq, reduceIte, spec_natural,
      map_zipWith_mapped_left, Except.ok.injEq]
    exact zipWith_congr _ _ (fun dd rr => by rw [one_div_div]) DD RR
  · -- Davis-Peebles
    simp only [TP_estimator, String.reduceEq, reduceIte, spec_davis_peebles,
      map_zipWith_mapped_left, Except.ok.injEq]
    exact zipWith_congr _ _
      (fun dd dr => by rw [one_div_div, mul_div_mul_left _ _ hND1']) DD DR
  · -- Hewett
    simp only [TP_estimator, String.reduceEq, reduceIte, spec_hewett,
      zipWith_mapped_left, zipWith_two_over_common_right, Except.ok.injEq]
    exact zipWith3Q_congr _ _
      (fun dd dr rr => by rw [one_div_div, one_div_div]) DD DR RR
  · -- Hamilton
    simp only [TP_estimator, String.reduceEq, reduceIte, spec_hamilton,
      map_zipWith_pair_sq_right, Except.ok.injEq]
    rw [zipWith3Q_swap23]
  · -- Landy-Szalay
    simp only [TP_estimator, String.reduceEq, reduceIte, spec_landy_szalay,
      zipWith_mapped_left, zipWith_two_over_common_right, map_zipWith3Q,
      Except.ok.injEq]
    exact zipWith3Q_congr _ _
      (fun dd dr rr => by rw [one_div_div, one_div_div]; ring) DD DR RR

/-- Witness for C1 at concrete counts `DD = [6]`, `DR = [3]`, `RR = [2]` and
sample sizes `ND1 = 1, ND2 = 2, NR1 = 3, NR2 = 4`. -/
theorem TP_estimator_matches_spec_formulas_witness :
    (0 : ℚ) < 1 ∧ (0 : ℚ) < 2 ∧ (0 : ℚ) < 3 ∧ (0 : ℚ) < 4 ∧
      (TP_estimator [6] [3] [2] 1 2 3 4 "Natural"
          = .ok (spec_natural [6] [2] 1 2 3 4)
        ∧ TP_estimator [6] [3] [2] 1 2 3 4 "Davis-Peebles"
          = .ok (spec_davis_peebles [6] [3] 2 4)
        ∧ TP_estimator [6] [3] [2] 1 2 3 4 "Hewett"
          = .ok (spec_hewett [6] [3] [2] 1 2 3 4)
        ∧ TP_estimator [6] [3] [2] 1 2 3 4 "Hamilton"
          = .ok (spec_hamilton [6] [3] [2])
        ∧ TP_estimator [6] [3] [2] 1 2 3 4 "Landy-Szalay"
          = .ok (spec_landy_szalay [6] [3] [2] 1 2 3 4)) :=
  ⟨by norm_num, by norm_num, by norm_num, by norm_num,
    TP_estimator_matches_spec_formulas [6] [3] [2] 1 2 3 4
      (by norm_num) (by norm_num) (by norm_num) (by norm_num)⟩

/-! ## Jackknife variance and covariance (`jackknife_errors`, `covariance_matrix`) -/

/-- `np.mean(sub, axis=0)`: the column mean of the `N_sub_vol x Nbins`
matrix of per-resample estimates. -/
def subvolMean {n nb : ℕ} (sub : Fin n → Fin nb → ℚ) (j : Fin nb) : ℚ :=
  (∑ r, sub r j) / n

/-- The `error2` value of `jackknife_errors` in `tpcf_jackknife`:
`((N_sub_vol-1)/N_sub_vol) * ((sub - mean)**2).sum(axis=0)`.  The source
then returns `error = error2**0.5`; the square root is kept out of the
rational embedding and accounted for in the theorem below via `Real.sqrt`. -/
def jackknife_errors_sq {n nb : ℕ} (sub : Fin n → Fin nb → ℚ) : Fin nb → ℚ :=
  fun j => ((n : ℚ) - 1) / n * ∑ r, (sub r j - subvolMean sub j) ^ 2

/-- `covariance_matrix(sub, full, N_sub_vol)` from `tpcf_jackknife`:
`cov[i,j] = ((N_sub_vol-1)/N_sub_vol) * sum_k after_subtraction[k,i]*after_subtraction[k,j]`
(the inner python loop accumulating `tmp` is the sum over resamples). -/
def covariance_matrix {n nb : ℕ} (sub : Fin n → Fin nb → ℚ) :
    Fin nb → Fin nb → ℚ :=
  fun i j => ((n : ℚ) - 1) / n *
    ∑ r, (sub r i - subvolMean sub i) * (sub r j - subvolMean sub j)

/-- **C3.** For every `Nsub ≥ 2` and every matrix of per-resample estimates,
the i-th diagonal entry of the covariance matrix equals the square of the
i-th per-bin standard error returned by `jackknife_errors` (the source's
`error = error2**0.5`, so `error^2 = error2` because `error2 ≥ 0`), namely
`Cov[i,i] = ((Nsub-1)/Nsub) * sum_r (xi_sub[r,i] - mean_r(xi_sub[.,i]))^2`. -/
theorem covariance_diag_eq_error_sq {n nb : ℕ} (sub : Fin n → Fin nb → ℚ)
    (i : Fin nb) (h : 2 ≤ n) :
    covariance_matrix sub i i = jackknife_errors_sq sub i
      ∧ ((jackknife_errors_sq sub i : ℚ) : ℝ)
          = Real.sqrt ((jackknife_errors_sq sub i : ℚ) : ℝ) ^ 2
      ∧ jackknife_errors_sq sub i
          = ((n : ℚ) - 1) / n * ∑ r, (sub r i - (∑ s, sub s i) / n) ^ 2 := by
  have hnn : (0 : ℚ) ≤ jackknife_errors_sq sub i := by
    apply mul_nonneg
    · apply div_nonneg
      · have : (2 : ℚ) ≤ (n : ℚ) := by exact_mod_cast h
        linarith
      · positivity
    · exact Finset.sum_nonneg fun r _ => sq_nonneg _
  refine ⟨?_, ?_, ?_⟩
  · simp only [covariance_matrix, jackknife_errors_sq]
    congr 1
    exact Finset.sum_congr rfl fun r _ => (pow_two (sub r i - subvolMean sub i)).symm
  · rw [Real.sq_sqrt (by exact_mod_cast hnn)]
  · simp only [jackknife_errors_sq, subvolMean]

/-- Witness for C3 at `Nsub = 2`, one bin, resample estimates `[1], [3]`. -/
theorem covariance_diag_eq_error_sq_witness :
    2 ≤ 2 ∧
      (covariance_matrix (![![(1 : ℚ)], ![3]]) 0 0
          = jackknife_errors_sq (![![(1 : ℚ)], ![3]]) 0
        ∧ ((jackknife_errors_sq (![![(1 : ℚ)], ![3]]) 0 : ℚ) : ℝ)
            = Real.sqrt ((jackknife_errors_sq (![![(1 : ℚ)], ![3]]) 0 : ℚ) : ℝ) ^ 2
        ∧ jackknife_errors_sq (![![(1 : ℚ)], ![3]]) 0
            = (((2 : ℕ) : ℚ) - 1) / ((2 : ℕ) : ℚ)
              * ∑ s : Fin 2, (![![(1 : ℚ)], ![3]] s 0
                  - (∑ t : Fin 2, ![![(1 : ℚ)], ![3]] t 0) / ((2 : ℕ) : ℚ)) ^ 2) :=
  ⟨by norm_num, covariance_diag_eq_error_sq (![![(1 : ℚ)], ![3]]) 0 (by norm_num)⟩

/-! ## Spatial subvolume partitioner (`get_subvolume_labels`) -/

/-- numpy fancy indexing of one axis of length `n` with an integer `i`:
valid for `0 ≤ i < n`, valid with wrap-around for `-n ≤ i < 0`, and an
`IndexError` (here `none`) otherwise.  `get_subvolume_labels` performs no
clipping before indexing `inds`. -/
def npFancyIndex (n : ℕ) (i : ℤ) : Option ℕ :=
  if 0 ≤ i ∧ i < (n : ℤ) then some i.toNat
  else if -(n : ℤ) ≤ i ∧ i < 0 then some (i + n).toNat
  else none

/-- `get_subvolume_labels` of `tpcf_jackknife` applied to one 3-d point
`(p1, p2, p3)`: `dL = Lbox/Nsub`, `index = np.floor(p/dL).astype(int)`, and
the label is `inds[index[0], index[1], index[2]]` with
`inds = np.arange(1, N_sub_vol+1).reshape(Nsub[0], Nsub[1], Nsub[2])`,
whose entry at `(a, b, c)` is `1 + (a*Nsub[1] + b)*Nsub[2] + c`. -/
def get_subvolume_label (L1 L2 L3 : ℚ) (n1 n2 n3 : ℕ) (p1 p2 p3 : ℚ) :
    Option ℕ :=
  match npFancyIndex n1 ⌊p1 / (L1 / n1)⌋, npFancyIndex n2 ⌊p2 / (L2 / n2)⌋,
      npFancyIndex n3 ⌊p3 / (L3 / n3)⌋ with
  | some a, some b, some c => some (1 + (a * n2 + b) * n3 + c)
  | _, _, _ => none

lemma floor_cell_index_range (L : ℚ) (n : ℕ) (p : ℚ) (hn : 0 < n)
    (hL : 0 < L) (hp : 0 ≤ p) (hp' : p < L) :
    0 ≤ ⌊p / (L / n)⌋ ∧ ⌊p / (L / n)⌋ < (n : ℤ) := by
  have hnq : (0 : ℚ) < (n : ℚ) := by exact_mod_cast hn
  have hdL : (0 : ℚ) < L / n := div_pos hL hnq
  constructor
  · exact Int.floor_nonneg.2 (div_nonneg hp hdL.le)
  · rw [Int.floor_lt]
    push_cast
    rw [div_lt_iff₀ hdL, mul_div_cancel₀ _ hnq.ne']
    exact hp'

/-- Counterexample for C5: a point with first coordinate exactly equal to
the box extent (`p1 = Lbox = 2`, `Nsub = (2,2,2)`) is not clamped: the cell
index `floor(2 / 1) = 2` is out of range for the size-2 axis and the fancy
indexing fails (numpy `IndexError`), so no label in `1..8` is assigned. -/
theorem get_subvolume_label_boundary_counterexample :
    get_subvolume_label 2 2 2 2 2 2 2 0 0 = none := by
  have h2 : ⌊(2 : ℚ) / (2 / ((2 : ℕ) : ℚ))⌋ = 2 := by norm_num
  have h0 : ⌊(0 : ℚ) / (2 / ((2 : ℕ) : ℚ))⌋ = 0 := by norm_num
  unfold get_subvolume_label
  rw [h2, h0]
  unfold npFancyIndex
  norm_num

/-- **C5 (amended).** For every point whose coordinates lie in the half-open
box `[0, Lbox)` per dimension (not the closed box: a coordinate exactly
equal to the box extent raises an out-of-range fancy-indexing error, see the
counterexample), `get_subvolume_labels` assigns the 1-based flat raster
index of `floor(coordinate / cell_size)`, a label in `1..Nsubvol`. -/
theorem get_subvolume_label_interior (L1 L2 L3 : ℚ) (n1 n2 n3 : ℕ)
    (p1 p2 p3 : ℚ) (hn1 : 0 < n1) (hn2 : 0 < n2) (hn3 : 0 < n3)
    (hL1 : 0 < L1) (hL2 : 0 < L2) (hL3 : 0 < L3)
    (hp1 : 0 ≤ p1) (hp1' : p1 < L1) (hp2 : 0 ≤ p2) (hp2' : p2 < L2)
    (hp3 : 0 ≤ p3) (hp3' : p3 < L3) :
    ∃ lab, get_subvolume_label L1 L2 L3 n1 n2 n3 p1 p2 p3 = some lab
      ∧ 1 ≤ lab ∧ lab ≤ n1 * n2 * n3 := by
  obtain ⟨hlo1, hhi1⟩ := floor_cell_index_range L1 n1 p1 hn1 hL1 hp1 hp1'
  obtain ⟨hlo2, hhi2⟩ := floor_cell_index_range L2 n2 p2 hn2 hL2 hp2 hp2'
  obtain ⟨hlo3, hhi3⟩ := floor_cell_index_range L3 n3 p3 hn3 hL3 hp3 hp3'
  set i1 := ⌊p1 / (L1 / n1)⌋
  set i2 := ⌊p2 / (L2 / n2)⌋
  set i3 := ⌊p3 / (L3 / n3)⌋
  have ha : i1.toNat < n1 := by omega
  have hb : i2.toNat < n2 := by omega
  have hc : i3.toNat < n3 := by omega
  refine ⟨1 + (i1.toNat * n2 + i2.toNat) * n3 + i3.toNat, ?_, ?_, ?_⟩
  · unfold get_subvolume_label npFancyIndex
    rw [if_pos ⟨hlo1, hhi1⟩, if_pos ⟨hlo2, hhi2⟩, if_pos ⟨hlo3, hhi3⟩]
  · omega
  · have h12 : i1.toNat * n2 + i2.toNat + 1 ≤ n1 * n2 := by
      calc i1.toNat * n2 + i2.toNat + 1
          ≤ i1.toNat * n2 + n2 := by omega
        _ = (i1.toNat + 1) * n2 := by ring
        _ ≤ n1 * n2 := Nat.mul_le_mul_right _ (by omega)
    have h123 : (i1.toNat * n2 + i2.toNat) * n3 + i3.toNat + 1 ≤ n1 * n2 * n3 := by
      calc (i1.toNat * n2 + i2.toNat) * n3 + i3.toNat + 1
          ≤ (i1.toNat * n2 + i2.toNat) * n3 + n3 := by omega
        _ = (i1.toNat * n2 + i2.toNat + 1) * n3 := by ring
        _ ≤ n1 * n2 * n3 := Nat.mul_le_mul_right _ h12
    omega

/-- Witness for C5 (amended) at `Lbox = (2,2,2)`, `Nsub = (2,2,2)` and the
interior point `(1, 0, 3/2)`. -/
theorem get_subvolume_label_interior_witness :
    (0 : ℚ) ≤ 1 ∧ (1 : ℚ) < 2 ∧ (0 : ℚ) ≤ 3/2 ∧ (3/2 : ℚ) < 2 ∧
      ∃ lab, get_subvolume_label 2 2 2 2 2 2 1 0 (3/2) = some lab
        ∧ 1 ≤ lab ∧ lab ≤ 2 * 2 * 2 :=
  ⟨by norm_num, by norm_num, by norm_num, by norm_num,
    get_subvolume_label_interior 2 2 2 2 2 2 1 0 (3/2)
      (by norm_num) (by norm_num) (by norm_num) (by norm_num) (by norm_num)
      (by norm_num) (by norm_num) (by norm_num) (by norm_num) (by norm_num)
      (by norm_num) (by norm_num)⟩

/-! ## Projected correlation integrator (`integrate_2D_xi` in `wp`) -/

/-- `integrate_2D_xi(x, pi_bins) = np.sum(x * np.diff(pi_bins), axis=1)`:
row `i` of the 2-D xi surface dotted with the pi-bin widths. -/
def integrate_2D_xi {nrp npi : ℕ} (x : Fin nrp → Fin npi → ℚ)
    (pi_bins : Fin (npi + 1) → ℚ) : Fin nrp → ℚ :=
  fun i => ∑ j, x i j * (pi_bins j.succ - pi_bins j.castSucc)

/-- **C6.** For every 2-D correlation surface and strictly increasing pi-bin
edges, `wp`'s line-of-sight integration returns per rp-bin the finite
Riemann sum of `xi(rp, pi)` times the pi-bin widths (successive differences
of the edges); in the degenerate case of a single pi-bin `[0, pi_max]` it is
exactly `xi(rp) * pi_max`. -/
theorem integrate_2D_xi_riemann_sum {nrp npi : ℕ} (x : Fin nrp → Fin npi → ℚ)
    (pi_bins : Fin (npi + 1) → ℚ) (hmono : StrictMono pi_bins) :
    (∀ i, integrate_2D_xi x pi_bins i
        = ∑ j, x i j * (pi_bins j.succ - pi_bins j.castSucc))
      ∧ (∀ (y : Fin nrp → Fin 1 → ℚ) (edges : Fin 2 → ℚ), edges 0 = 0 →
          ∀ i, integrate_2D_xi y edges i = y i 0 * edges 1) := by
  refine ⟨fun i => rfl, fun y edges h0 i => ?_⟩
  have hsucc : (0 : Fin 1).succ = (1 : Fin 2) := rfl
  have hcast : (0 : Fin 1).castSucc = (0 : Fin 2) := rfl
  simp [integrate_2D_xi, Fin.sum_univ_one, hsucc, hcast, h0]

/-- Witness for C6 with one rp-bin, one pi-bin, edges `[0, 5]` and constant
surface `xi = 2`: the integral is `2 * 5`. -/
theorem integrate_2D_xi_riemann_sum_witness :
    StrictMono (![0, 5] : Fin 2 → ℚ) ∧
      ((∀ i : Fin 1, integrate_2D_xi (fun _ _ => (2 : ℚ)) (![0, 5] : Fin 2 → ℚ) i
          = ∑ j : Fin 1, (2 : ℚ) * ((![0, 5] : Fin 2 → ℚ) j.succ
              - (![0, 5] : Fin 2 → ℚ) j.castSucc))
        ∧ (∀ (y : Fin 1 → Fin 1 → ℚ) (edges : Fin 2 → ℚ), edges 0 = 0 →
            ∀ i : Fin 1, integrate_2D_xi y edges i = y i 0 * edges 1)) := by
  have hs : StrictMono (![0, 5] : Fin 2 → ℚ) := by
    intro a b hab
    fin_cases a <;> fin_cases b <;> simp_all <;> norm_num
  exact ⟨hs, integrate_2D_xi_riemann_sum (fun _ _ => (2 : ℚ)) ![0, 5] hs⟩

/-! ## `tpcf_jackknife`: downsampling and the jackknife count wiring -/

/-- numpy integer-array indexing `sample[inds[0:max_sample_size]]` where
`inds` is a shuffled `arange`; the shuffle outcome is the explicit
permutation parameter `perm`. -/
def npSelect (perm : List ℕ) (maxN : ℕ) (l : List Pt) : List Pt :=
  (perm.take maxN).filterMap (fun i => l.get? i)

/-- The three downsampling steps of `tpcf_jackknife` (source lines
417-435), in source order: `sample2` (only when larger than the cap and not
elementwise equal to `sample1`), then `sample1`, then the randoms branch.
The source's randoms branch reads
`sample1 = randoms[inds]` — it assigns the downsampled random subset into
`sample1` and leaves `randoms` untouched. -/
def tpcf_jackknife_downsample (perm1 perm2 permr : List ℕ)
    (sample1 sample2 randoms : List Pt) (maxN : ℕ) :
    List Pt × List Pt × List Pt :=
  let s2 := if sample2.length > maxN ∧ ¬(sample1 = sample2)
    then npSelect perm2 maxN sample2 else sample2
  let s1 := if sample1.length > maxN then npSelect perm1 maxN sample1 else sample1
  let s1' := if randoms.length > maxN then npSelect permr maxN randoms else s1
  (s1', s2, randoms)

/-- **C10 (code bug).** With `max_sample_size = 1`, `sample1 = sample2 =
[[5]]` and an oversize random catalog `[[1],[2]]` (identity shuffle), the
downsampling step of `tpcf_jackknife` overwrites `sample1` with the
downsampled random subset `[[1]]` and leaves `randoms` at full size —
instead of replacing `randoms` and leaving the samples unchanged as the
claim (and spec §9) require. -/
theorem tpcf_jackknife_downsample_overwrites_sample1 :
    tpcf_jackknife_downsample [] [] [0, 1] [[5]] [[5]] [[1], [2]] 1
      = ([[1]], [[5]], [[1], [2]]) := by decide

/-- `get_subvolume_numbers(j_index, N_sub_vol)` from `tpcf_jackknife`: the
source stacks the labels with one placeholder copy of each label `1..N`
(`np.hstack((j_index, np.arange(1, N_sub_vol+1)))`), takes
`np.unique(..., return_counts=True)` — whose sorted distinct values are
exactly `1..N` whenever every label lies in `1..N` — and subtracts the
placeholder, yielding the per-label occurrence count over `1..N_sub_vol`. -/
def get_subvolume_numbers (j_index : List ℕ) (N_sub_vol : ℕ) : List ℕ :=
  (List.range' 1 N_sub_vol).map
    (fun lab => (j_index ++ List.range' 1 N_sub_vol).count lab - 1)

/-- The per-resample point counts fed to the estimator (source lines
628-634): `N1_subs = N1 - get_subvolume_numbers(j_index_1, N_sub_vol)`. -/
def jackknife_point_counts (Ntot : ℕ) (j_index : List ℕ) (N_sub_vol : ℕ) :
    List ℚ :=
  (get_subvolume_numbers j_index N_sub_vol).map
    (fun c : ℕ => (Ntot : ℚ) - (c : ℚ))

/-- The per-channel pair counts fed to the estimator for the delete-one
resamples: the `[1:, :]` slice of the provider's `(N_sub_vol+1) x Nbins`
array, taken as-is (`D1D1_sub = D1D1[1:, :]` etc., source lines 639-671). -/
def jackknife_fed_pair_counts {n nb : ℕ} (M : Fin (n + 1) → Fin nb → ℚ) :
    Fin n → Fin nb → ℚ :=
  fun r => M r.succ

/-- Modelled from the spec: "The delete-one count for subvolume r is
obtained as (full-sample row − row r)" of the provider's array (spec §4.3,
§4.9); this subtraction is what claim C2 asserts is fed to the estimator. -/
def spec_delete_one_count {n nb : ℕ} (M : Fin (n + 1) → Fin nb → ℚ)
    (r : Fin n) : Fin nb → ℚ :=
  fun i => M 0 i - M r.succ i

/-- Counterexample for C2: for the provider array with full row `[10]` and
resample row `[4]`, the count fed to the estimator for that resample is the
raw row `[4]`, not the delete-one difference `[10 - 4] = [6]`. -/
theorem jackknife_fed_counts_not_delete_one :
    jackknife_fed_pair_counts (![![10], ![4], ![6]] : Fin 3 → Fin 1 → ℚ) 0
      ≠ spec_delete_one_count (![![10], ![4], ![6]] : Fin 3 → Fin 1 → ℚ) 0 := by
  intro h
  have h0 := congrFun h 0
  simp only [jackknife_fed_pair_counts, spec_delete_one_count] at h0
  norm_num [show ((0 : Fin 2).succ : Fin 3) = 1 from rfl] at h0

lemma range'_map_getD (f : ℕ → ℚ) (d : ℚ) :
    ∀ (n s i : ℕ), i < n → ((List.range' s n).map f).getD i d = f (s + i) := by
  intro n
  induction n with
  | zero => intro s i hi; omega
  | succ n ih =>
    intro s i hi
    rw [List.range'_succ]
    cases i with
    | zero => simp
    | succ i =>
      simp only [List.map_cons, List.getD_cons_succ]
      rw [ih (s + 1) i (by omega)]
      congr 1
      omega

/-- **C2 (amended).** In `tpcf_jackknife`, the per-channel pair counts fed
to the estimator for delete-one resample `r` are row `r+1` of the
provider's `(Nsubvol+1) x Nbins` array taken unmodified — the orchestration
performs no `row 0 − row r` subtraction on pair counts (see the
counterexample) — while the point counts are indeed reduced: the `ND` fed
for resample `r` equals the full count minus the number of points carrying
label `r+1`. -/
theorem jackknife_fed_counts_amended {n nb : ℕ}
    (M : Fin (n + 1) → Fin nb → ℚ) (r : Fin n) (Ntot : ℕ) (j_index : List ℕ) :
    jackknife_fed_pair_counts M r = M r.succ
      ∧ (jackknife_point_counts Ntot j_index n).getD r 0
          = (Ntot : ℚ) - (j_index.count (1 + (r : ℕ)) : ℚ) := by
  refine ⟨rfl, ?_⟩
  unfold jackknife_point_counts get_subvolume_numbers
  rw [List.map_map, range'_map_getD _ _ n 1 r r.isLt]
  have hmem : 1 + (r : ℕ) ∈ List.range' 1 n := by
    rw [List.mem_range'_1]
    exact ⟨Nat.le_add_right _ _, by omega⟩
  have hcount : (j_index ++ List.range' 1 n).count (1 + (r : ℕ))
      = j_index.count (1 + (r : ℕ)) + 1 := by
    rw [List.count_append,
      List.count_eq_one_of_mem (List.nodup_range' 1 n) hmem]
  simp only [Function.comp_apply, hcount]
  simp

/-! ## The `tpcf` orchestration

`npairs` (the external pair counter `pair_counters.grid_pairs.npairs`) is
out of scope per the spec and not part of the sources; it enters the
embedding as an abstract `PairCounter`, so theorems quantified over the
counter hold for every provider behaviour. -/

/-- The external `PairCountProvider`: cumulative pair counts per bin. -/
structure PairCounter where
  npairs : List Pt → List Pt → List ℚ → List (Option ℚ) → List ℚ

/-- The value returned by `tpcf`: one xi, three xi
(`xi_11, xi_12, xi_22`), or Python's implicit `None` when the function
body falls through every `return` (both flags false). -/
inductive TpcfResult where
  | one (xi : List ℚ)
  | three (xi11 xi12 xi22 : List ℚ)
  | nothing
deriving DecidableEq

/-- A user-supplied `period` argument: a scalar to broadcast, or a length-k
vector whose entries may be `np.inf` (`none`). -/
inductive PeriodIn where
  | scalar (q : ℚ)
  | vec (v : List (Option ℚ))

/-- `np.shape(sample)[-1]`: the dimensionality of the points. -/
def sampleDim (s : List Pt) : ℕ := (s.headD []).length

/-- Period processing (source lines 94-104): `None` becomes
`[inf]*k` with `PBCs = False`; a scalar is broadcast to all k dimensions;
a vector must have length k or `ValueError` is raised. -/
def processPeriod (periodOpt : Option PeriodIn) (k : ℕ) :
    Except PyError (Bool × List (Option ℚ)) :=
  match periodOpt with
  | none => .ok (false, List.replicate k none)
  | some (.scalar q) => .ok (true, List.replicate k (some q))
  | some (.vec v) =>
      if v.length = k then .ok (true, v)
      else .error (.valueError "period should have shape k")

/-- The two downsampling steps of `tpcf` (source lines 106-117), in source
order: `sample2` first (skipped when elementwise equal to `sample1`), then
`sample1`.  Note the second step creates a new `sample1` without updating
`sample2`, so an equal pair can become unequal here. -/
def tpcf_downsample (perm1 perm2 : List ℕ) (sample1 sample2 : List Pt)
    (maxN : ℕ) : List Pt × List Pt :=
  let s2 := if sample2.length > maxN ∧ ¬(sample1 = sample2)
    then npSelect perm2 maxN sample2 else sample2
  let s1 := if sample1.length > maxN then npSelect perm1 maxN sample1 else sample1
  (s1, s2)

/-- `np.max` of a (nonempty) 1-D array. -/
def listMaxQ : List ℚ → ℚ
  | [] => 0
  | h :: t => t.foldl max h

/-- `np.min(period)` where `none` stands for `np.inf`: the result is
infinite (`none`) only when every entry is. -/
def pfMin (period : List (Option ℚ)) : Option ℚ :=
  period.foldr (fun o acc => match o, acc with
    | none, a => a
    | some q, none => some q
    | some q, some a => some (min q a)) none

/-- `min(period) == np.inf`. -/
def allInf (period : List (Option ℚ)) : Bool := period.all (fun o => o.isNone)

/-- `max(period) == np.inf`. -/
def anyInf (period : List (Option ℚ)) : Bool := period.any (fun o => o.isNone)

/-- `np.max(rbins) > np.min(period)/2.0`; comparison with an infinite
minimum is `False`. -/
def rbinsTooBig (rbins : List ℚ) (period : List (Option ℚ)) : Bool :=
  match pfMin period with
  | none => false
  | some m => decide (listMaxQ rbins > m / 2)

/-- The eager validation block of `tpcf` (source lines 125-135), in source
order.  The `period is not None` / `sample2 is not None` guards are always
true at this point (both were materialised above).  For an unsupported
estimator the `raise ValueError(...)` line first evaluates its message
expression `'...'.value(estimators)`; `str` has no attribute `value`, so
executing the raise line itself throws `AttributeError` — the call still
fails here, eagerly, but not with a `ValueError`. -/
def tpcf_checks (s1 s2 : List Pt) (randomsOpt : Option (List Pt))
    (rbins : List ℚ) (period : List (Option ℚ)) (PBCs : Bool)
    (estimator : String) : Option PyError :=
  if rbinsTooBig rbins period then
    some (.valueError "Cannot calculate for seperations larger than Lbox over 2")
  else if ¬(sampleDim s1 = sampleDim s2) then
    some (.valueError "Sample 1 and sample 2 must have same dimension.")
  else if randomsOpt.isNone ∧ allInf period then
    some (.valueError "If no PBCs are specified, randoms must be provided.")
  else if ¬(estimator ∈ estimators) then
    some (.attributeError "str object has no attribute value")
  else if PBCs ∧ anyInf period then
    some (.valueError "If a non-infinte PBC specified, all PBCs must be non-infinte.")
  else none

/-- `nball_volume(R, k)` from `random_counts`: the source computes
`(pi**(k/2.0)/gamma(k/2.0+1.0))*R**k`; the dimension-dependent constant
`pi^(k/2)/Gamma(k/2+1)` is irrational, so it enters the rational embedding
as the abstract parameter `Ck`. -/
def nball_volume (Ck : ℚ) (kdim : ℕ) (R : ℚ) : ℚ := Ck * R ^ kdim

/-- `period.prod()`; only evaluated on all-finite periods (the analytic
branch is guarded by the mixed-PBC check), so the `getD` default never
fires there. -/
def qprodPeriod (period : List (Option ℚ)) : ℚ :=
  (period.map (fun o => o.getD 0)).prod

/-- `random_counts` of `tpcf` (source lines 139-213): three branches —
no PBCs with randoms, PBCs with randoms, PBCs with analytic randoms.
Returns `(D1R, D2R, RR)`; `none` components are the source's `None`s.
When `PBCs == False` the earlier validation guarantees randoms are present;
the unreachable `none` fallback mirrors the fact that the source would
crash there. -/
def random_counts (pc : PairCounter) (Ck : ℚ) (s1 s2 : List Pt)
    (randomsOpt : Option (List Pt)) (rbins : List ℚ)
    (period : List (Option ℚ)) (PBCs : Bool) (kdim : ℕ)
    (do_RR do_DR : Bool) :
    Option (List ℚ) × Option (List ℚ) × Option (List ℚ) :=
  if PBCs = false then
    match randomsOpt with
    | some randoms =>
        let RR := np_diff (pc.npairs randoms randoms rbins period)
        let D1R := np_diff (pc.npairs s1 randoms rbins period)
        let D2R := if s1 = s2 then none
          else some (np_diff (pc.npairs s2 randoms rbins period))
        (some D1R, D2R, some RR)
    | none => (none, none, none)
  else
    match randomsOpt with
    | some randoms =>
        let RR := if do_RR then some (np_diff (pc.npairs randoms randoms rbins period))
          else none
        let D1R := if do_DR then some (np_diff (pc.npairs s1 randoms rbins period))
          else none
        let D2R := if s1 = s2 then none
          else if do_DR then some (np_diff (pc.npairs s2 randoms rbins period))
          else none
        (D1R, D2R, RR)
    | none =>
        let dv := np_diff (rbins.map (nball_volume Ck kdim))
        let global_volume := qprodPeriod period
        let N1 : ℚ := s1.length
        let rho1 := N1 / global_volume
        let D1R := dv.map (fun v => N1 * (v * rho1))
        if s1 = s2 then
          (some D1R, none, some D1R)
        else
          let N2 : ℚ := s2.length
          let rho2 := N2 / global_volume
          let D2R := dv.map (fun v => N2 * (v * rho2))
          let NR := N1 * N2
          let rhor := NR / global_volume
          let RR := dv.map (fun v => v * rhor)
          (some D1R, some D2R, some RR)

/-- `pair_counts` of `tpcf` (source lines 215-230): `D1D1` always, and
`D1D2`, `D2D2` either aliased to it (equal samples) or counted. -/
def pair_counts (pc : PairCounter) (s1 s2 : List Pt) (rbins : List ℚ)
    (period : List (Option ℚ)) : List ℚ × List ℚ × List ℚ :=
  let D1D1 := np_diff (pc.npairs s1 s1 rbins period)
  if s1 = s2 then (D1D1, D1D1, D1D1)
  else (D1D1, np_diff (pc.npairs s1 s2 rbins period),
    np_diff (pc.npairs s2 s2 rbins period))

/-- The result dispatch of `tpcf` (source lines 306-321).  A `none` count
channel is only consumed by estimators whose requirements selected it, in
which case it is `some`; `getD []` materialises the channel.  When both
flags are false the `if/elif` chain falls through and Python implicitly
returns `None` (`TpcfResult.nothing`).  Note the `do_auto`-only branch of
the source passes `D1R` for the `RR` argument and returns only `xi_11`. -/
def tpcf_dispatch (s1 s2 : List Pt) (do_auto do_cross : Bool)
    (estimator : String) (D1D1 D1D2 D2D2 : List ℚ)
    (D1R D2R RR : Option (List ℚ)) (N1 N2 NR : ℚ) :
    Except PyError TpcfResult :=
  if s2 = s1 then
    (TP_estimator D1D1 (D1R.getD []) (RR.getD []) N1 N1 NR NR estimator).map .one
  else if do_auto = true ∧ do_cross = true then
    match TP_estimator D1D1 (D1R.getD []) (RR.getD []) N1 N1 NR NR estimator,
        TP_estimator D1D2 (D1R.getD []) (RR.getD []) N1 N2 NR NR estimator,
        TP_estimator D2D2 (D2R.getD []) (RR.getD []) N2 N2 NR NR estimator with
    | .ok xi11, .ok xi12, .ok xi22 => .ok (.three xi11 xi12 xi22)
    | .error e, _, _ => .error e
    | _, .error e, _ => .error e
    | _, _, .error e => .error e
  else if do_cross = true then
    (TP_estimator D1D2 (D1R.getD []) (RR.getD []) N1 N2 NR NR estimator).map .one
  else if do_auto = true then
    match TP_estimator D1D1 (D1R.getD []) (D1R.getD []) N1 N1 NR NR estimator,
        TP_estimator D2D2 (D2R.getD []) (D2R.getD []) N2 N2 NR NR estimator with
    | .ok xi11, .ok _ => .ok (.one xi11)
    | .error e, _ => .error e
    | _, .error e => .error e
  else .ok .nothing

/-- The `tpcf` entry point (source lines 18-321), assembled from the parts
above in source order: default `sample2`, period processing, downsampling,
eager validation, estimator requirements, sample sizes (all `1.0` when no
randoms are given), pair counts, random counts, dispatch.  `perm1`/`perm2`
surface the internal `np.random.shuffle` outcomes as explicit parameters. -/
def tpcf (pc : PairCounter) (Ck : ℚ) (perm1 perm2 : List ℕ)
    (sample1 : List Pt) (rbins : List ℚ)
    (sample2opt randomsOpt : Option (List Pt)) (periodOpt : Option PeriodIn)
    (maxN : ℕ) (do_auto do_cross : Bool) (estimator : String) :
    Except PyError TpcfResult :=
  let sample2 := sample2opt.getD sample1
  match processPeriod periodOpt (sampleDim sample1) with
  | .error e => .error e
  | .ok (PBCs, period) =>
    let ds := tpcf_downsample perm1 perm2 sample1 sample2 maxN
    let s1 := ds.1
    let s2 := ds.2
    let kdim := sampleDim s1
    match tpcf_checks s1 s2 randomsOpt rbins period PBCs estimator with
    | some e => .error e
    | none =>
      match TP_estimator_requirements estimator with
      | .error e => .error e
      | .ok (_do_DD, do_DR, do_RR) =>
        let N1 : ℚ := if randomsOpt.isSome then (s1.length : ℚ) else 1
        let N2 : ℚ := if randomsOpt.isSome then (s2.length : ℚ) else 1
        let NR : ℚ := match randomsOpt with
          | some randoms => (randoms.length : ℚ)
          | none => 1
        let dd := pair_counts pc s1 s2 rbins period
        let dr := random_counts pc Ck s1 s2 randomsOpt rbins period PBCs kdim
          do_RR do_DR
        tpcf_dispatch s1 s2 do_auto do_cross estimator dd.1 dd.2.1 dd.2.2
          dr.1 dr.2.1 dr.2.2 N1 N2 NR

/-- A concrete pair counter used in witnesses: zero count per bin edge. -/
def zeroCounter : PairCounter := ⟨fun _ _ rbins _ => rbins.map (fun _ => 0)⟩

/-- **C4.** In the analytic-randoms branch of `random_counts` (periodic
boundaries, no random catalog), when `sample1` and `sample2` are the same
point set the returned random-random count `RR` is exactly the returned
analytic data-random count `D1R` (the source sets `RR = D1R`), and per
shell `D1R = N1 * (shell volume) * (N1 / box volume)` with the shell
volumes the successive differences of `nball_volume` at the bin edges. -/
theorem random_counts_analytic_auto (pc : PairCounter) (Ck : ℚ)
    (s1 s2 : List Pt) (rbins : List ℚ) (period : List (Option ℚ))
    (kdim : ℕ) (do_RR do_DR : Bool) (hs : s1 = s2) :
    (random_counts pc Ck s1 s2 none rbins period true kdim do_RR do_DR).2.2
        = (random_counts pc Ck s1 s2 none rbins period true kdim do_RR do_DR).1
      ∧ (random_counts pc Ck s1 s2 none rbins period true kdim do_RR do_DR).1
          = some ((np_diff (rbins.map (nball_volume Ck kdim))).map
              (fun dv => (s1.length : ℚ) * dv
                * ((s1.length : ℚ) / qprodPeriod period))) := by
  subst hs
  constructor
  · simp [random_counts]
  · simp only [random_counts, Bool.true_eq_false, if_false, eq_self_iff_true,
      if_true]
    refine congrArg some ?_
    congr 1
    funext v
    ring

/-- Witness for C4 with `sample1 = sample2 = [[0]]`, `rbins = [0,1]`,
`period = [4]`, `Ck = 1`, `k = 1`. -/
theorem random_counts_analytic_auto_witness :
    ([[(0 : ℚ)]] : List Pt) = [[(0 : ℚ)]] ∧
      ((random_counts zeroCounter 1 [[(0 : ℚ)]] [[(0 : ℚ)]] none [0, 1]
            [some 4] true 1 true false).2.2
          = (random_counts zeroCounter 1 [[(0 : ℚ)]] [[(0 : ℚ)]] none [0, 1]
            [some 4] true 1 true false).1
        ∧ (random_counts zeroCounter 1 [[(0 : ℚ)]] [[(0 : ℚ)]] none [0, 1]
            [some 4] true 1 true false).1
          = some ((np_diff (([0, 1] : List ℚ).map (nball_volume 1 1))).map
              (fun dv => (([[(0 : ℚ)]] : List Pt).length : ℚ) * dv
                * ((([[(0 : ℚ)]] : List Pt).length : ℚ)
                  / qprodPeriod [some 4])))) :=
  ⟨rfl, random_counts_analytic_auto zeroCounter 1 [[(0 : ℚ)]] [[(0 : ℚ)]]
    [0, 1] [some 4] 1 true false rfl⟩

lemma tpcf_downsample_id (perm1 perm2 : List ℕ) (s1 s2 : List Pt) (maxN : ℕ)
    (h1 : s1.length ≤ maxN) (h2 : s2.length ≤ maxN) :
    tpcf_downsample perm1 perm2 s1 s2 maxN = (s1, s2) := by
  unfold tpcf_downsample
  have c2 : ¬(s2.length > maxN ∧ ¬(s1 = s2)) := fun h => absurd h.1 (by omega)
  rw [if_neg c2, if_neg (by omega : ¬(s1.length > maxN))]

lemma estimator_mem_of_checks_none (s1 s2 : List Pt)
    (randomsOpt : Option (List Pt)) (rbins : List ℚ)
    (period : List (Option ℚ)) (PBCs : Bool) (estimator : String)
    (h : tpcf_checks s1 s2 randomsOpt rbins period PBCs estimator = none) :
    estimator ∈ estimators := by
  by_contra hmem
  revert h
  unfold tpcf_checks
  split_ifs <;> simp_all

lemma requirements_ok_of_mem (estimator : String) (h : estimator ∈ estimators) :
    ∃ t, TP_estimator_requirements estimator = .ok t := by
  fin_cases h <;> exact ⟨_, rfl⟩

/-- **C7 (code bug).** For every pair counter and every otherwise valid call
with `sample2` distinct from `sample1` and both `do_auto = False` and
`do_cross = False`, `tpcf` does not raise: the dispatch falls through every
branch and the call returns Python's implicit `None`
(`TpcfResult.nothing`) — instead of failing with an `InvalidArgument`
error as the claim (and spec §4.6/§9) require. -/
theorem tpcf_both_flags_false_silent_none (pc : PairCounter) (Ck : ℚ)
    (perm1 perm2 : List ℕ) (sample1 sample2 : List Pt) (rbins : List ℚ)
    (randomsOpt : Option (List Pt)) (periodOpt : Option PeriodIn)
    (maxN : ℕ) (estimator : String) (PBCs : Bool) (period : List (Option ℚ))
    (hper : processPeriod periodOpt (sampleDim sample1) = .ok (PBCs, period))
    (hlen1 : sample1.length ≤ maxN) (hlen2 : sample2.length ≤ maxN)
    (hneq : sample2 ≠ sample1)
    (hchk : tpcf_checks sample1 sample2 randomsOpt rbins period PBCs estimator
      = none) :
    tpcf pc Ck perm1 perm2 sample1 rbins (some sample2) randomsOpt periodOpt
      maxN false false estimator = .ok .nothing := by
  obtain ⟨⟨dDD, dDR, dRR⟩, hreq⟩ := requirements_ok_of_mem estimator
    (estimator_mem_of_checks_none _ _ _ _ _ _ _ hchk)
  unfold tpcf
  rw [hper]
  simp only [Option.getD_some,
    tpcf_downsample_id perm1 perm2 sample1 sample2 maxN hlen1 hlen2, hchk, hreq]
  unfold tpcf_dispatch
  rw [if_neg hneq]
  simp

/-- Witness for C7: a concrete valid call (`sample1 = [[0]]`,
`sample2 = [[1]]`, randoms given, periodic box 4) with both flags false
returns silent `None`. -/
theorem tpcf_both_flags_false_silent_none_witness :
    processPeriod (some (.scalar 4)) (sampleDim [[(0 : ℚ)]])
        = .ok (true, [some 4])
      ∧ ([[(0 : ℚ)]] : List Pt).length ≤ 10
      ∧ ([[(1 : ℚ)]] : List Pt).length ≤ 10
      ∧ ([[(1 : ℚ)]] : List Pt) ≠ [[(0 : ℚ)]]
      ∧ tpcf_checks [[(0 : ℚ)]] [[(1 : ℚ)]] (some [[(2 : ℚ)]]) [0, 1]
          [some 4] true "Natural" = none
      ∧ tpcf zeroCounter 1 [] [] [[(0 : ℚ)]] [0, 1] (some [[(1 : ℚ)]])
          (some [[(2 : ℚ)]]) (some (.scalar 4)) 10 false false "Natural"
        = .ok .nothing :=
  ⟨rfl, by norm_num, by norm_num, by decide,
    by norm_num [tpcf_checks, rbinsTooBig, pfMin, listMaxQ, sampleDim,
      allInf, anyInf, estimators],
    tpcf_both_flags_false_silent_none zeroCounter 1 [] [] [[(0 : ℚ)]]
      [[(1 : ℚ)]] [0, 1] (some [[(2 : ℚ)]]) (some (.scalar 4)) 10 "Natural"
      true [some 4] rfl (by norm_num) (by norm_num) (by decide)
      (by norm_num [tpcf_checks, rbinsTooBig, pfMin, listMaxQ, sampleDim,
        allInf, anyInf, estimators])⟩

/-- **C8 (code bug).** For every pair counter (the conclusion does not
depend on the provider, so the failure occurs before any pair counting)
and every call passing the earlier validations with an estimator name not
among the five supported ones, `tpcf` fails eagerly — but with an
`AttributeError`, not the intended `ValueError`: the
`raise ValueError('...'.value(estimators))` line calls the non-existent
`str.value` while building its message. -/
theorem tpcf_unknown_estimator_fails_eagerly (pc : PairCounter) (Ck : ℚ)
    (perm1 perm2 : List ℕ) (sample1 sample2 : List Pt) (rbins : List ℚ)
    (randomsOpt : Option (List Pt)) (periodOpt : Option PeriodIn)
    (maxN : ℕ) (do_auto do_cross : Bool) (estimator : String)
    (PBCs : Bool) (period : List (Option ℚ))
    (hper : processPeriod periodOpt (sampleDim sample1) = .ok (PBCs, period))
    (hlen1 : sample1.length ≤ maxN) (hlen2 : sample2.length ≤ maxN)
    (hest : ¬(estimator ∈ estimators))
    (h1 : rbinsTooBig rbins period = false)
    (h2 : sampleDim sample1 = sampleDim sample2)
    (h3 : ¬(randomsOpt.isNone = true ∧ allInf period = true)) :
    tpcf pc Ck perm1 perm2 sample1 rbins (some sample2) randomsOpt periodOpt
        maxN do_auto do_cross estimator
      = .error (.attributeError "str object has no attribute value") := by
  unfold tpcf
  rw [hper]
  simp only [Option.getD_some,
    tpcf_downsample_id perm1 perm2 sample1 sample2 maxN hlen1 hlen2]
  have hc : tpcf_checks sample1 sample2 randomsOpt rbins period PBCs estimator
      = some (.attributeError "str object has no attribute value") := by
    unfold tpcf_checks
    rw [if_neg (by simp [h1]), if_neg (by simp [h2]), if_neg h3, if_pos hest]
  rw [hc]

/-- Witness for C8: the unknown estimator name `"unsupported"` on an
otherwise valid call makes `tpcf` fail with the `AttributeError` before
any pair counting. -/
theorem tpcf_unknown_estimator_fails_eagerly_witness :
    processPeriod (some (.scalar 4)) (sampleDim [[(0 : ℚ)]])
        = .ok (true, [some 4])
      ∧ ¬("unsupported" ∈ estimators)
      ∧ rbinsTooBig [0, 1] [some 4] = false
      ∧ sampleDim [[(0 : ℚ)]] = sampleDim [[(1 : ℚ)]]
      ∧ ¬((some [[(2 : ℚ)]] : Option (List Pt)).isNone = true
          ∧ allInf [some 4] = true)
      ∧ tpcf zeroCounter 1 [] [] [[(0 : ℚ)]] [0, 1] (some [[(1 : ℚ)]])
          (some [[(2 : ℚ)]]) (some (.scalar 4)) 10 true true "unsupported"
        = .error (.attributeError "str object has no attribute value") :=
  ⟨rfl, by decide, by norm_num [rbinsTooBig, pfMin, listMaxQ], rfl, by decide,
    tpcf_unknown_estimator_fails_eagerly zeroCounter 1 [] [] [[(0 : ℚ)]]
      [[(1 : ℚ)]] [0, 1] (some [[(2 : ℚ)]]) (some (.scalar 4)) 10 true true
      "unsupported" true [some 4] rfl (by norm_num) (by norm_num) (by decide)
      (by norm_num [rbinsTooBig, pfMin, listMaxQ]) rfl (by decide)⟩

/-- Counterexample for C9: `sample2` passed as a value-equal copy of
`sample1` (here literally the same list `[[0],[3]]`) with
`max_sample_size = 1`: the internal downsampling replaces `sample1` by a
one-point subset without updating `sample2`, the `np.all(sample2==sample1)`
test then fails, and the call follows the cross path — with both flags
false it returns silent `None` rather than the claimed single
auto-correlation with flags ignored. -/
theorem tpcf_value_equal_copy_counterexample :
    tpcf zeroCounter 1 [0, 1] [] [[(0 : ℚ)], [3]] [0, 1]
        (some [[(0 : ℚ)], [3]]) (some [[(1 : ℚ)]]) none 1 false false
        "Natural"
      = .ok .nothing := by
  norm_num [tpcf, processPeriod, tpcf_downsample, npSelect, tpcf_checks,
    rbinsTooBig, pfMin, listMaxQ, sampleDim, allInf, anyInf, estimators,
    TP_estimator_requirements, pair_counts, random_counts, np_diff,
    zeroCounter, tpcf_dispatch]
  intro h
  exact absurd h (by decide)

lemma except_map_one_ok (m : Except PyError (List ℚ)) (res : TpcfResult)
    (h : m.map TpcfResult.one = .ok res) : ∃ xi, res = .one xi := by
  cases m with
  | error e => simp [Except.map] at h
  | ok xi => exact ⟨xi, by simpa [Except.map] using h.symm⟩

/-- **C9 (amended).** Provided `sample1` is within `max_sample_size` (so
the internal downsampling does not fire; see the counterexample for the
oversize case), `tpcf` with `sample2` a value-equal copy of `sample1`
returns the same output as with `sample2 = sample1` itself, for any two
choices of `do_auto`/`do_cross` (the flags are ignored), and every
successful result is exactly one auto-correlation. -/
theorem tpcf_value_equal_sample2_single_auto (pc : PairCounter) (Ck : ℚ)
    (perm1 perm2 : List ℕ) (sample1 s2 : List Pt) (rbins : List ℚ)
    (randomsOpt : Option (List Pt)) (periodOpt : Option PeriodIn)
    (maxN : ℕ) (a b a' b' : Bool) (estimator : String)
    (hs : s2 = sample1) (hlen : sample1.length ≤ maxN) :
    tpcf pc Ck perm1 perm2 sample1 rbins (some s2) randomsOpt periodOpt
        maxN a b estimator
      = tpcf pc Ck perm1 perm2 sample1 rbins (some sample1) randomsOpt
        periodOpt maxN a' b' estimator
    ∧ ∀ res, tpcf pc Ck perm1 perm2 sample1 rbins (some s2) randomsOpt
        periodOpt maxN a b estimator = .ok res → ∃ xi, res = .one xi := by
  subst hs
  unfold tpcf
  simp only [Option.getD_some,
    tpcf_downsample_id perm1 perm2 s2 s2 maxN hlen hlen]
  cases hpp : processPeriod periodOpt (sampleDim s2) with
  | error e => exact ⟨rfl, fun res h => by simp at h⟩
  | ok pr =>
    obtain ⟨PBCs, period⟩ := pr
    dsimp only
    cases hchk : tpcf_checks s2 s2 randomsOpt rbins period PBCs estimator with
    | some e => exact ⟨rfl, fun res h => by simp at h⟩
    | none =>
      dsimp only
      cases hreq : TP_estimator_requirements estimator with
      | error e => exact ⟨rfl, fun res h => by simp at h⟩
      | ok t =>
        obtain ⟨dDD, dDR, dRR⟩ := t
        dsimp only
        unfold tpcf_dispatch
        simp only [if_pos rfl]
        exact ⟨rfl, fun res h => except_map_one_ok _ res h⟩

/-- Witness for C9 (amended) at `sample1 = [[0]]`, copy `[[0]]`, flag
choices `(true, false)` vs `(false, true)`. -/
theorem tpcf_value_equal_sample2_single_auto_witness :
    ([[(0 : ℚ)]] : List Pt) = [[(0 : ℚ)]]
      ∧ ([[(0 : ℚ)]] : List Pt).length ≤ 10
      ∧ (tpcf zeroCounter 1 [] [] [[(0 : ℚ)]] [0, 1] (some [[(0 : ℚ)]])
            (some [[(2 : ℚ)]]) (some (.scalar 4)) 10 true false "Natural"
          = tpcf zeroCounter 1 [] [] [[(0 : ℚ)]] [0, 1] (some [[(0 : ℚ)]])
            (some [[(2 : ℚ)]]) (some (.scalar 4)) 10 false true "Natural"
        ∧ ∀ res, tpcf zeroCounter 1 [] [] [[(0 : ℚ)]] [0, 1]
            (some [[(0 : ℚ)]]) (some [[(2 : ℚ)]]) (some (.scalar 4)) 10
            true false "Natural" = .ok res → ∃ xi, res = .one xi) :=
  ⟨rfl, by norm_num,
    tpcf_value_equal_sample2_single_auto zeroCounter 1 [] [] [[(0 : ℚ)]]
      [[(0 : ℚ)]] [0, 1] (some [[(2 : ℚ)]]) (some (.scalar 4)) 10 true false
      false true "Natural" rfl (by norm_num)⟩

end Halotools

